import Mathlib

/-!
Verification of the image-go watermarking pipeline.

The definitions below are a shallow embedding of the core of the repository:
the compositor geometry and the task processor in
internal/image/service.go, the record-store queries in sql/queries
(images.sql, batches.sql), and the watermark portion of the batch upload
handler in internal/batch/handler.go.  Go float64 arithmetic is modelled
exactly as IEEE binary64 (round to nearest, ties to even), computed on
unreduced integer fractions; Go int conversion of a float64 truncates
toward zero.
-/

set_option maxRecDepth 8000

namespace ImageGo

/-! ## IEEE binary64 model on integer fractions -/

/-- Fuel-driven binary logarithm on ℕ (largest e with 2^e ≤ n, and 0 for n ≤ 1). -/
def log2fuel : ℕ → ℕ → ℕ
  | 0, _ => 0
  | fuel + 1, n => if n ≤ 1 then 0 else log2fuel fuel (n / 2) + 1

/-- Binary logarithm on ℕ, kernel-reducible. -/
def nlog2 (n : ℕ) : ℕ := log2fuel n n

/-- Whether 2^z ≤ a/b, for naturals a, b with b > 0. -/
def pow2LE (z : ℤ) (a b : ℕ) : Bool :=
  if 0 ≤ z then Nat.ble (b * 2 ^ z.toNat) a else Nat.ble b (a * 2 ^ (-z).toNat)

/-- Binary exponent of the positive fraction a/b: the unique e with
2^e ≤ a/b < 2^(e+1). -/
def rexpN (a b : ℕ) : ℤ :=
  let e0 : ℤ := (nlog2 a : ℤ) - (nlog2 b : ℤ)
  if pow2LE e0 a b then e0 else e0 - 1

/-- Round the nonnegative fraction a/b (b > 0) to the nearest natural,
ties to even. -/
def natRound (a b : ℕ) : ℕ :=
  let f := a / b
  let r := a % b
  if 2 * r < b then f
  else if b < 2 * r then f + 1
  else if f % 2 = 0 then f else f + 1

/-- The fraction (a/b) * 2^k as an unreduced natural fraction. -/
def scaledFrac (a b : ℕ) (k : ℤ) : ℕ × ℕ :=
  if 0 ≤ k then (a * 2 ^ k.toNat, b) else (a, b * 2 ^ (-k).toNat)

/-- Nearest binary64 value to the positive fraction a/b (53-bit significand,
round to nearest, ties to even), as an unreduced natural fraction.  Overflow
and subnormals do not arise at the magnitudes used by the compositor. -/
def rndN (a b : ℕ) : ℕ × ℕ :=
  let e := rexpN a b
  let m := scaledFrac a b (52 - e)
  let n := natRound m.1 m.2
  scaledFrac n 1 (e - 52)

/-- A signed unreduced fraction num / den (den > 0 throughout this development). -/
structure Frac where
  num : ℤ
  den : ℕ
  deriving DecidableEq, Repr

/-- Round a signed fraction to the nearest binary64 value. -/
def rndF (x : Frac) : Frac :=
  if x.num = 0 then ⟨0, 1⟩
  else
    let nd := rndN x.num.natAbs x.den
    if 0 ≤ x.num then ⟨(nd.1 : ℤ), nd.2⟩ else ⟨-(nd.1 : ℤ), nd.2⟩

/-- Go float64 multiplication: exact product, then one rounding. -/
def flMul (x y : Frac) : Frac := rndF ⟨x.num * y.num, x.den * y.den⟩

/-- Go float64 division: exact quotient, then one rounding.  Division by a
zero float64 (Go yields an infinity) does not arise here: the divisor is
always the width of a successfully decoded image. -/
def flDiv (x y : Frac) : Frac :=
  if 0 ≤ y.num then rndF ⟨x.num * (y.den : ℤ), x.den * y.num.natAbs⟩
  else rndF ⟨-(x.num * (y.den : ℤ)), x.den * y.num.natAbs⟩

/-- Go conversion float64(n) of an integer. -/
def toF64 (n : ℤ) : Frac := rndF ⟨n, 1⟩

/-- Go conversion int(x) of a float64: truncation toward zero. -/
def Frac.trunc (x : Frac) : ℤ :=
  if 0 ≤ x.num then ((x.num.natAbs / x.den : ℕ) : ℤ)
  else -((x.num.natAbs / x.den : ℕ) : ℤ)

/-- The Go source literal 0.15 as a binary64 constant. -/
def c015 : Frac := rndF ⟨15, 100⟩

/-- The Go source literal 0.01 as a binary64 constant. -/
def c001 : Frac := rndF ⟨1, 100⟩

/-! ## Compositor placement geometry (service.go lines 90-100) -/

structure Placement where
  targetWidth : ℤ
  targetHeight : ℤ
  padding : ℤ
  watermarkX : ℤ
  watermarkY : ℤ
  deriving DecidableEq, Repr

/-- Watermark placement exactly as ProcessImage computes it:
targetWidth := int(float64(baseWidth) * 0.15);
scale := float64(targetWidth) / float64(wWidth);
targetHeight := int(float64(wHeight) * scale);
padding := int(float64(baseHeight) * 0.01);
watermarkX := baseWidth - targetWidth - padding;
watermarkY := baseHeight - targetHeight - padding. -/
def placement (baseWidth baseHeight wWidth wHeight : ℤ) : Placement :=
  let targetWidth := (flMul (toF64 baseWidth) c015).trunc
  let scale := flDiv (toF64 targetWidth) (toF64 wWidth)
  let targetHeight := (flMul (toF64 wHeight) scale).trunc
  let padding := (flMul (toF64 baseHeight) c001).trunc
  { targetWidth := targetWidth
    targetHeight := targetHeight
    padding := padding
    watermarkX := baseWidth - targetWidth - padding
    watermarkY := baseHeight - targetHeight - padding }

/-- The placement formulas as the spec words them, read with exact rational
arithmetic and the floor function (refinement target, for comparison with
the float64 computation the code actually performs). -/
def claimedPlacement (W H Ww Wh : ℤ) : Placement :=
  let targetWidth := ⌊(W : ℚ) * (15 / 100)⌋
  let targetHeight := ⌊(Wh : ℚ) * targetWidth / Ww⌋
  let padding := ⌊(H : ℚ) * (1 / 100)⌋
  { targetWidth := targetWidth
    targetHeight := targetHeight
    padding := padding
    watermarkX := W - targetWidth - padding
    watermarkY := H - targetHeight - padding }

/-! ## Data model

ImageStatus mirrors the image_status enum of sql/schema/004_images.sql;
NullString mirrors Go database/sql NullString (a string plus a validity
flag; Valid = false encodes SQL NULL). -/

inductive ImageStatus
  | pending
  | processing
  | completed
  | failed
  deriving DecidableEq, Repr

structure NullString where
  string : String
  valid : Bool
  deriving DecidableEq, Repr

/-- The queue message (internal/batch ImageTask): just the image id. -/
structure ImageTask where
  imageID : String
  deriving DecidableEq, Repr

/-- A row of the images table (sql/schema/004_images.sql; soft deletion via
deleted_at is modelled by the deleted flag). -/
structure ImagesRow where
  id : String
  batchID : String
  key : String
  originalUrl : String
  processedUrl : NullString
  status : ImageStatus
  deleted : Bool
  deriving DecidableEq, Repr

/-- The watermark columns of a row of the batches table. -/
structure BatchRow where
  id : String
  watermarkKey : NullString
  watermarkUrl : NullString
  deriving DecidableEq, Repr

/-- Result row of the GetImageByID query: images.* joined with the
watermark_url and watermark_key columns of the owning batch. -/
structure ImageRow where
  id : String
  batchID : String
  key : String
  originalUrl : String
  processedUrl : NullString
  status : ImageStatus
  watermarkUrl : NullString
  watermarkKey : NullString
  deriving DecidableEq, Repr

/-- Parameters of the UpdateImageByID query.  Field defaults are the Go zero
values: the failure paths of ProcessImage construct the struct with only ID
and Status, leaving ProcessedUrl as the invalid (NULL) NullString. -/
structure UpdateImageByIDParams where
  processedUrl : NullString := ⟨"", false⟩
  status : ImageStatus
  id : String
  deriving DecidableEq, Repr

/-- CreateImage: INSERT INTO images(batch_id, key, original_url); the
remaining columns take their schema defaults, processed_url NULL and
status pending. -/
def createImage (newID batchID key originalUrl : String) : ImagesRow :=
  { id := newID
    batchID := batchID
    key := key
    originalUrl := originalUrl
    processedUrl := ⟨"", false⟩
    status := .pending
    deleted := false }

/-- UpdateImageByID: UPDATE images SET processed_url = $1, status = $2,
updated_at = NOW() WHERE id = $3 AND deleted_at IS NULL. -/
def updateImageByID (row : ImagesRow) (p : UpdateImageByIDParams) : ImagesRow :=
  if row.id = p.id ∧ row.deleted = false then
    { row with processedUrl := p.processedUrl, status := p.status }
  else row

/-- GetImageByID row shape: the own columns of the image joined with the
watermark columns of the owning batch (images i INNER JOIN batches b ON
b.id = i.batch_id). -/
def getImageByIDRow (i : ImagesRow) (b : BatchRow) : ImageRow :=
  { id := i.id
    batchID := i.batchID
    key := i.key
    originalUrl := i.originalUrl
    processedUrl := i.processedUrl
    status := i.status
    watermarkUrl := b.watermarkUrl
    watermarkKey := b.watermarkKey }

/-- GetObjectURL (internal/utils/assets.go): fmt.Sprintf("https://%s/%s", cf, key). -/
def getObjectURL (cfDistribution key : String) : String :=
  "https://" ++ cfDistribution ++ "/" ++ key

/-- Watermark handling of BatchHandler.Create (internal/batch/handler.go
lines 185-219): with a watermark file present its uploaded key is
"watermark/" ++ assetPath; with none, the local watermarkKey and
watermarkURL string variables keep their zero value "".  Either way the
CreateBatch parameters are built with Valid: true. -/
def createBatchWatermark (uploadedKey : Option String) (cfDistribution : String) :
    NullString × NullString :=
  let watermarkKey := match uploadedKey with
    | some fileName => fileName
    | none => ""
  let watermarkURL := match uploadedKey with
    | some fileName => getObjectURL cfDistribution fileName
    | none => ""
  (⟨watermarkKey, true⟩, ⟨watermarkURL, true⟩)

/-! ## Image values and the JPEG codec boundary -/

/-- A pixel rectangle, as in the Go image package (Min and Max corners). -/
structure Rect where
  minX : ℤ
  minY : ℤ
  maxX : ℤ
  maxY : ℤ
  deriving DecidableEq, Repr

def Rect.dx (r : Rect) : ℤ := r.maxX - r.minX

def Rect.dy (r : Rect) : ℤ := r.maxY - r.minY

/-- An in-memory decoded image, abstracted to its bounds: none of the
verified claims depends on pixel values, only on dimensions and geometry. -/
structure DecodedImage where
  bounds : Rect
  deriving DecidableEq, Repr

/-- Modelled from the spec: the Go standard library JPEG encoder
(image/jpeg, outside this repository) writes the width and height of the image
into the stream header; per the spec the stream is "decodable back to an
image of identical W×H".  A JPEG byte stream is abstracted to that header. -/
structure JpegBytes where
  width : ℤ
  height : ℤ
  quality : ℕ
  deriving DecidableEq, Repr

/-- Modelled from the spec: jpeg.Encode at the given quality records the
bounds of the encoded image. -/
def jpegEncodeImage (img : DecodedImage) (quality : ℕ) : JpegBytes :=
  { width := img.bounds.dx, height := img.bounds.dy, quality := quality }

/-- Modelled from the spec: decoding a JPEG stream yields an image whose
bounds start at the origin and span the dimensions in the header. -/
def jpegDecodeImage (b : JpegBytes) : DecodedImage :=
  { bounds := ⟨0, 0, b.width, b.height⟩ }

/-- Pixel compositing step DrawMask (drawing the resized watermark over dst
through the uniform 128/255 alpha mask): it writes pixels inside the given
rectangle and leaves the bounds of dst unchanged, which is all the
bounds-level abstraction records. -/
def drawMask (dst : DecodedImage) (_rect : Rect) : DecodedImage :=
  { bounds := dst.bounds }

/-- The in-memory compositing of ProcessImage (service.go lines 79-104):
copy the decoded base into a fresh RGBA buffer over the same bounds; if a
watermark is present, compute its placement, resize it and blend it in at
the placement rectangle. -/
def composite (base : DecodedImage) (watermark : Option DecodedImage) : DecodedImage :=
  let bounds := base.bounds
  let dst : DecodedImage := { bounds := bounds }
  match watermark with
  | none => dst
  | some w =>
      let p := placement bounds.dx bounds.dy w.bounds.dx w.bounds.dy
      drawMask dst ⟨p.watermarkX, p.watermarkY,
        p.watermarkX + p.targetWidth, p.watermarkY + p.targetHeight⟩

/-! ## Task processor (internal/image/service.go ProcessImage) -/

/-- Decidable equality for Except values, for evaluating concrete runs. -/
instance exceptDecEq {ε α : Type} [DecidableEq ε] [DecidableEq α] :
    DecidableEq (Except ε α) := fun x y =>
  match x, y with
  | .error a, .error b =>
      if h : a = b then isTrue (by rw [h]) else isFalse (by simp [h])
  | .ok a, .ok b =>
      if h : a = b then isTrue (by rw [h]) else isFalse (by simp [h])
  | .error _, .ok _ => isFalse (by simp)
  | .ok _, .error _ => isFalse (by simp)

/-- The queue acknowledgment directive (internal/pubsub AckType). -/
inductive AckType
  | ack
  | nackRequeue
  | nackDiscard
  deriving DecidableEq, Repr

/-- Opaque blob bytes fetched from the object store. -/
abbrev Blob := String

/-- Outcomes of the external collaborators of one ProcessImage invocation:
the record store lookup, the object store by key, the image decoder on
fetched bytes, the JPEG encoder, the object store writes, the record
updates (whose outcome the code never inspects), and the random asset name
drawn by GetAssetPath.  The S3 bucket and CloudFront distribution are
configuration constants. -/
structure Env where
  getImage : String → Except String ImageRow
  getObject : String → Except String Blob
  decode : Blob → Except String DecodedImage
  encodeOk : Bool
  putObjectOk : String → Bool
  updateOk : UpdateImageByIDParams → Bool
  assetPath : String
  cfDistribution : String

/-- External calls a ProcessImage invocation performs, in program order. -/
inductive Effect
  | getImageByID (id : String)
  | s3GetObject (key : String)
  | jpegEncode (quality : ℕ)
  | s3PutObject (key : String) (contentType : String)
  | updateImage (p : UpdateImageByIDParams)
  deriving DecidableEq, Repr

/-- Tail of ProcessImage from the base-image decode on (service.go lines
69-146), shared between the watermark and no-watermark paths; pre is the
trace of calls already made, watermarkImg the decoded watermark if any. -/
def processDecode (env : Env) (m : ImageTask) (img : ImageRow) (objBody : Blob)
    (pre : List Effect) (watermarkImg : Option DecodedImage) :
    AckType × List Effect :=
  match env.decode objBody with
  | .error _ =>
      (.nackRequeue,
        pre ++ [.updateImage { id := m.imageID, status := .processing }])
  | .ok decodedImg =>
      if env.encodeOk = false then
        (.nackRequeue,
          pre ++ [.jpegEncode 50,
            .updateImage { id := m.imageID, status := .processing }])
      else if env.putObjectOk ("processed/" ++ env.assetPath) = false then
        (.nackRequeue,
          pre ++ [.jpegEncode (jpegEncodeImage (composite decodedImg watermarkImg) 50).quality,
            .s3PutObject ("processed/" ++ env.assetPath) "image/jpeg",
            .updateImage { id := m.imageID, status := .processing }])
      else
        (.ack,
          pre ++ [.jpegEncode (jpegEncodeImage (composite decodedImg watermarkImg) 50).quality,
            .s3PutObject ("processed/" ++ env.assetPath) "image/jpeg",
            .updateImage { processedUrl := ⟨getObjectURL env.cfDistribution ("processed/" ++ env.assetPath), true⟩, status := .completed, id := img.id }])

/-- ProcessImage (service.go lines 24-146): one task delivery, returning
the queue directive together with the trace of external calls made. -/
def processImage (env : Env) (m : ImageTask) : AckType × List Effect :=
  match env.getImage m.imageID with
  | .error _ =>
      (.nackDiscard,
        [.getImageByID m.imageID,
          .updateImage { id := m.imageID, status := .failed }])
  | .ok img =>
      match env.getObject img.key with
      | .error _ =>
          (.nackDiscard,
            [.getImageByID m.imageID, .s3GetObject img.key,
              .updateImage { id := m.imageID, status := .failed }])
      | .ok objBody =>
          if img.watermarkKey.valid then
            match env.getObject img.watermarkKey.string with
            | .error _ =>
                (.nackRequeue,
                  [.getImageByID m.imageID, .s3GetObject img.key,
                    .s3GetObject img.watermarkKey.string])
            | .ok wmBody =>
                match env.decode wmBody with
                | .error _ =>
                    (.nackRequeue,
                      [.getImageByID m.imageID, .s3GetObject img.key,
                        .s3GetObject img.watermarkKey.string])
                | .ok wImg =>
                    processDecode env m img objBody
                      [.getImageByID m.imageID, .s3GetObject img.key,
                        .s3GetObject img.watermarkKey.string]
                      (some wImg)
          else
            processDecode env m img objBody
              [.getImageByID m.imageID, .s3GetObject img.key] none

/-! ## Concrete sample data used by witnesses and counterexamples -/

/-- GetImageByID row of an image whose batch has no watermark reference. -/
def rowNoWm : ImageRow :=
  { id := "img-1"
    batchID := "batch-1"
    key := "raw/base.jpeg"
    originalUrl := "https://cdn.test/raw/base.jpeg"
    processedUrl := ⟨"", false⟩
    status := .pending
    watermarkUrl := ⟨"", false⟩
    watermarkKey := ⟨"", false⟩ }

/-- GetImageByID row of an image whose batch has a watermark reference. -/
def rowWm : ImageRow :=
  { rowNoWm with
    watermarkKey := ⟨"watermark/wm.png", true⟩
    watermarkUrl := ⟨"https://cdn.test/watermark/wm.png", true⟩ }

def baseImg : DecodedImage := { bounds := ⟨0, 0, 1000, 800⟩ }

def wmImg : DecodedImage := { bounds := ⟨0, 0, 200, 100⟩ }

/-- Environment in which every external call succeeds and the record has a
watermark reference; blob bytes are the fetched key, so the decoder can
tell the watermark blob from the base blob. -/
def envHappyWm : Env :=
  { getImage := fun i => if i = "img-1" then .ok rowWm else .error "no rows"
    getObject := fun k => .ok k
    decode := fun b => if b = "watermark/wm.png" then .ok wmImg else .ok baseImg
    encodeOk := true
    putObjectOk := fun _ => true
    updateOk := fun _ => true
    assetPath := "out.jpeg"
    cfDistribution := "cdn.test" }

/-- All calls succeed, record without watermark reference. -/
def envHappy : Env :=
  { envHappyWm with getImage := fun i => if i = "img-1" then .ok rowNoWm else .error "no rows" }

/-- The record lookup fails. -/
def envLookupFail : Env :=
  { envHappyWm with getImage := fun _ => .error "sql: no rows in result set" }

/-- The base blob fetch fails. -/
def envBaseFetchFail : Env :=
  { envHappy with getObject := fun _ => .error "NoSuchKey" }

/-- The watermark blob fetch fails (the base blob fetch succeeds). -/
def envWmFetchFail : Env :=
  { envHappyWm with
    getObject := fun k => if k = "raw/base.jpeg" then .ok k else .error "NoSuchKey" }

/-- The watermark blob decode fails (both fetches succeed). -/
def envWmDecodeFail : Env :=
  { envHappyWm with
    decode := fun b => if b = "watermark/wm.png" then .error "image: unknown format" else .ok baseImg }

/-- The base image decode fails, on the watermark-free path. -/
def envBaseDecodeFail : Env :=
  { envHappy with decode := fun _ => .error "image: unknown format" }

/-- The JPEG encode fails. -/
def envEncodeFail : Env := { envHappy with encodeOk := false }

def taskSample : ImageTask := ⟨"img-1"⟩

/-- The failure-path update the processor issues for the sample task. -/
def pFailed : UpdateImageByIDParams := { id := "img-1", status := .failed }

/-- An images row that has already completed, with a stored processed URL. -/
def rowDone : ImagesRow :=
  { id := "img-1"
    batchID := "batch-1"
    key := "raw/base.jpeg"
    originalUrl := "https://cdn.test/raw/base.jpeg"
    processedUrl := ⟨"https://cdn.test/processed/old.jpeg", true⟩
    status := .completed
    deleted := false }

/-- The batch row persisted by a Create request that uploaded no watermark
file: CreateBatch receives the watermark columns from createBatchWatermark. -/
def batchNoWm : BatchRow :=
  { id := "batch-1"
    watermarkKey := (createBatchWatermark none "cdn.test").1
    watermarkUrl := (createBatchWatermark none "cdn.test").2 }

/-- GetImageByID row for an image of that watermark-free batch. -/
def rowFromBatchNoWm : ImageRow :=
  getImageByIDRow
    (createImage "img-1" "batch-1" "raw/base.jpeg" "https://cdn.test/raw/base.jpeg")
    batchNoWm

/-- Environment around an image of the watermark-free batch; fetching the
empty key fails as S3 rejects it. -/
def envC4 : Env :=
  { envHappyWm with
    getImage := fun i => if i = "img-1" then .ok rowFromBatchNoWm else .error "no rows"
    getObject := fun k => if k = "" then .error "api error: empty key" else .ok k }

/-- The run state in which ProcessImage is about to decode the base image:
record loaded, base blob fetched, and the watermark either absent or
fetched and decoded; pre is the trace accumulated so far and w the decoded
watermark handed to the shared tail. -/
def reachesDecode (env : Env) (m : ImageTask) (img : ImageRow) (body : Blob)
    (pre : List Effect) (w : Option DecodedImage) : Prop :=
  env.getImage m.imageID = .ok img ∧ env.getObject img.key = .ok body ∧
    ((img.watermarkKey.valid = false ∧
        pre = [.getImageByID m.imageID, .s3GetObject img.key] ∧ w = none) ∨
      (∃ wmBody wImg, img.watermarkKey.valid = true ∧
        env.getObject img.watermarkKey.string = .ok wmBody ∧
        env.decode wmBody = .ok wImg ∧
        pre = [.getImageByID m.imageID, .s3GetObject img.key,
          .s3GetObject img.watermarkKey.string] ∧
        w = some wImg))

/-! ## Trace characterization helpers -/

/-- Every record update issued by the tail of the processor is either
inherited from the earlier trace, a best-effort PROCESSING mark on the
image, or the final COMPLETED write carrying a valid URL. -/
theorem processDecode_update_shape (env : Env) (m : ImageTask) (img : ImageRow)
    (objBody : Blob) (pre : List Effect) (w : Option DecodedImage)
    (p : UpdateImageByIDParams)
    (h : Effect.updateImage p ∈ (processDecode env m img objBody pre w).2) :
    Effect.updateImage p ∈ pre ∨
      (p.id = m.imageID ∧ p.processedUrl = ⟨"", false⟩ ∧ p.status = .processing) ∨
      (p.status = .completed ∧ p.processedUrl.valid = true) := by
  unfold processDecode at h
  split at h
  · simp at h
    rcases h with h | h
    · exact Or.inl h
    · subst h
      exact Or.inr (Or.inl ⟨rfl, rfl, rfl⟩)
  · split at h
    · simp at h
      rcases h with h | h
      · exact Or.inl h
      · subst h
        exact Or.inr (Or.inl ⟨rfl, rfl, rfl⟩)
    · split at h
      · simp at h
        rcases h with h | h
        · exact Or.inl h
        · subst h
          exact Or.inr (Or.inl ⟨rfl, rfl, rfl⟩)
      · simp at h
        rcases h with h | h
        · exact Or.inl h
        · subst h
          exact Or.inr (Or.inr ⟨rfl, rfl⟩)

/-- Every record update issued by one ProcessImage invocation is a
best-effort FAILED or PROCESSING mark on the image of the task with NULL
processed_url, or the final COMPLETED write carrying a valid URL. -/
theorem processImage_update_shape (env : Env) (m : ImageTask)
    (p : UpdateImageByIDParams)
    (h : Effect.updateImage p ∈ (processImage env m).2) :
    (p.id = m.imageID ∧ p.processedUrl = ⟨"", false⟩ ∧
        (p.status = .failed ∨ p.status = .processing)) ∨
      (p.status = .completed ∧ p.processedUrl.valid = true) := by
  unfold processImage at h
  split at h
  · simp at h
    subst h
    exact Or.inl ⟨rfl, rfl, Or.inl rfl⟩
  · split at h
    · simp at h
      subst h
      exact Or.inl ⟨rfl, rfl, Or.inl rfl⟩
    · split at h
      · split at h
        · simp at h
        · split at h
          · simp at h
          · rcases processDecode_update_shape _ _ _ _ _ _ _ h with hmem | hsh | hsh
            · simp at hmem
            · exact Or.inl ⟨hsh.1, hsh.2.1, Or.inr hsh.2.2⟩
            · exact Or.inr hsh
      · rcases processDecode_update_shape _ _ _ _ _ _ _ h with hmem | hsh | hsh
        · simp at hmem
        · exact Or.inl ⟨hsh.1, hsh.2.1, Or.inr hsh.2.2⟩
        · exact Or.inr hsh

/-- ProcessImage continues into the shared decoding tail exactly when the
run reaches the base decode. -/
theorem processImage_eq_of_reachesDecode (env : Env) (m : ImageTask)
    (img : ImageRow) (body : Blob) (pre : List Effect) (w : Option DecodedImage)
    (h : reachesDecode env m img body pre w) :
    processImage env m = processDecode env m img body pre w := by
  obtain ⟨h1, h2, hcase⟩ := h
  rcases hcase with ⟨hv, hpre, hw⟩ | ⟨wmBody, wImg, hv, hwb, hwi, hpre, hw⟩
  · subst hpre
    subst hw
    simp [processImage, h1, h2, hv]
  · subst hpre
    subst hw
    simp [processImage, h1, h2, hv, hwb, hwi]

/-- Every s3 put issued by the tail targets the generated processed key
with content type image/jpeg. -/
theorem processDecode_put_shape (env : Env) (m : ImageTask) (img : ImageRow)
    (body : Blob) (pre : List Effect) (w : Option DecodedImage) (k ct : String)
    (h : Effect.s3PutObject k ct ∈ (processDecode env m img body pre w).2) :
    Effect.s3PutObject k ct ∈ pre ∨
      (k = "processed/" ++ env.assetPath ∧ ct = "image/jpeg") := by
  unfold processDecode at h
  split at h
  · simp at h
    exact Or.inl h
  · split at h
    · simp at h
      exact Or.inl h
    · split at h <;> simp at h <;>
        rcases h with h | h
      · exact Or.inl h
      · exact Or.inr ⟨h.1, h.2⟩
      · exact Or.inl h
      · exact Or.inr ⟨h.1, h.2⟩

/-- Every jpeg encode issued by the tail uses quality 50. -/
theorem processDecode_encode_shape (env : Env) (m : ImageTask) (img : ImageRow)
    (body : Blob) (pre : List Effect) (w : Option DecodedImage) (q : ℕ)
    (h : Effect.jpegEncode q ∈ (processDecode env m img body pre w).2) :
    Effect.jpegEncode q ∈ pre ∨ q = 50 := by
  unfold processDecode at h
  split at h
  · simp at h
    exact Or.inl h
  · split at h
    · simp at h
      rcases h with h | h
      · exact Or.inl h
      · exact Or.inr h
    · split at h <;> simp [jpegEncodeImage] at h <;>
        rcases h with h | h
      · exact Or.inl h
      · exact Or.inr h
      · exact Or.inl h
      · exact Or.inr h

/-- An acknowledged tail run performed the quality-50 encode and the
image/jpeg put. -/
theorem processDecode_ack (env : Env) (m : ImageTask) (img : ImageRow)
    (body : Blob) (pre : List Effect) (w : Option DecodedImage) :
    (processDecode env m img body pre w).1 = .ack →
      Effect.jpegEncode 50 ∈ (processDecode env m img body pre w).2 ∧
        Effect.s3PutObject ("processed/" ++ env.assetPath) "image/jpeg" ∈
          (processDecode env m img body pre w).2 := by
  unfold processDecode
  split
  · intro h
    simp at h
  · split
    · intro h
      simp at h
    · split
      · intro h
        simp at h
      · intro _
        constructor <;> simp [jpegEncodeImage]

/-- Every s3 put one ProcessImage invocation issues targets the generated
processed key with content type image/jpeg. -/
theorem processImage_put_shape (env : Env) (m : ImageTask) (k ct : String)
    (h : Effect.s3PutObject k ct ∈ (processImage env m).2) :
    k = "processed/" ++ env.assetPath ∧ ct = "image/jpeg" := by
  unfold processImage at h
  split at h
  · simp at h
  · split at h
    · simp at h
    · split at h
      · split at h
        · simp at h
        · split at h
          · simp at h
          · rcases processDecode_put_shape _ _ _ _ _ _ _ _ h with hmem | hsh
            · simp at hmem
            · exact hsh
      · rcases processDecode_put_shape _ _ _ _ _ _ _ _ h with hmem | hsh
        · simp at hmem
        · exact hsh

/-- Every jpeg encode one ProcessImage invocation issues uses quality 50. -/
theorem processImage_encode_shape (env : Env) (m : ImageTask) (q : ℕ)
    (h : Effect.jpegEncode q ∈ (processImage env m).2) : q = 50 := by
  unfold processImage at h
  split at h
  · simp at h
  · split at h
    · simp at h
    · split at h
      · split at h
        · simp at h
        · split at h
          · simp at h
          · rcases processDecode_encode_shape _ _ _ _ _ _ _ h with hmem | hsh
            · simp at hmem
            · exact hsh
      · rcases processDecode_encode_shape _ _ _ _ _ _ _ h with hmem | hsh
        · simp at hmem
        · exact hsh

/-- An acknowledged ProcessImage invocation performed the quality-50 encode
and the image/jpeg put. -/
theorem processImage_ack_effects (env : Env) (m : ImageTask) :
    (processImage env m).1 = .ack →
      Effect.jpegEncode 50 ∈ (processImage env m).2 ∧
        Effect.s3PutObject ("processed/" ++ env.assetPath) "image/jpeg" ∈
          (processImage env m).2 := by
  unfold processImage
  split
  · intro h
    simp at h
  · split
    · intro h
      simp at h
    · split
      · split
        · intro h
          simp at h
        · split
          · intro h
            simp at h
          · exact processDecode_ack _ _ _ _ _ _
      · exact processDecode_ack _ _ _ _ _ _

/-- Every record-update parameter one ProcessImage invocation issues has a
NULL processed_url exactly when its status is not completed. -/
theorem update_params_inv (env : Env) (m : ImageTask) (p : UpdateImageByIDParams)
    (h : Effect.updateImage p ∈ (processImage env m).2) :
    (p.processedUrl.valid = true ↔ p.status = .completed) := by
  rcases processImage_update_shape env m p h with ⟨-, hurl, hst⟩ | ⟨hst, hurl⟩
  · rw [hurl]
    rcases hst with hst | hst <;> rw [hst] <;> simp
  · rw [hurl, hst]
    simp

/-! ## Claims -/

/-- C1 counterexample: at W=7, H=100, Ww=49, Wh=49 (all positive) the code
computes targetHeight = int(49 * (float64(1)/float64(49))) = 0 because the
float64 double rounding makes 49 * (1.0/49) = 1 - 2^-53 < 1, while the
claimed formula floor(Wh * targetWidth / Ww) = floor(49 * 1 / 49) = 1; the
placements therefore differ (and so do the y coordinates). -/
theorem C1_placement_counterexample :
    placement 7 100 49 49 ≠ claimedPlacement 7 100 49 49 := by
  have h1 : placement 7 100 49 49 =
      { targetWidth := 1, targetHeight := 0, padding := 1,
        watermarkX := 5, watermarkY := 99 } := by decide
  have h2 : claimedPlacement 7 100 49 49 =
      { targetWidth := 1, targetHeight := 1, padding := 1,
        watermarkX := 5, watermarkY := 98 } := by
    norm_num [claimedPlacement]
  rw [h1, h2]
  decide

/-- C1 (amended): for every base image of width W > 0, height H > 0 and
watermark of width Ww > 0, height Wh > 0, the compositor evaluates the
claimed formulas in IEEE binary64 arithmetic with conversions truncating
toward zero — so targetHeight is the truncation of the float64 product
Wh * (targetWidth/Ww), which can fall one short of the exact
floor(Wh * targetWidth / Ww) — and always places at
x = W - targetWidth - padding and y = H - targetHeight - padding; at
W=1000, H=800, Ww=200, Wh=100 the float64 evaluation agrees with the exact
floor formulas and gives targetWidth=150, targetHeight=75, padding=8,
x=842, y=717. -/
theorem C1_placement_geometry (W H Ww Wh : ℤ)
    (_hW : 0 < W) (_hH : 0 < H) (_hWw : 0 < Ww) (_hWh : 0 < Wh) :
    ((placement W H Ww Wh).watermarkX
        = W - (placement W H Ww Wh).targetWidth - (placement W H Ww Wh).padding
      ∧ (placement W H Ww Wh).watermarkY
        = H - (placement W H Ww Wh).targetHeight - (placement W H Ww Wh).padding)
    ∧ placement 1000 800 200 100 =
        { targetWidth := 150, targetHeight := 75, padding := 8,
          watermarkX := 842, watermarkY := 717 }
    ∧ placement 1000 800 200 100 = claimedPlacement 1000 800 200 100 := by
  refine ⟨⟨rfl, rfl⟩, by decide, ?_⟩
  have h2 : claimedPlacement 1000 800 200 100 =
      { targetWidth := 150, targetHeight := 75, padding := 8,
        watermarkX := 842, watermarkY := 717 } := by
    norm_num [claimedPlacement]
  rw [h2]
  decide

/-- C1 witness: the amended placement statement at the example
dimensions. -/
theorem C1_placement_geometry_witness :
    ((placement 1000 800 200 100).watermarkX
        = 1000 - (placement 1000 800 200 100).targetWidth
          - (placement 1000 800 200 100).padding
      ∧ (placement 1000 800 200 100).watermarkY
        = 800 - (placement 1000 800 200 100).targetHeight
          - (placement 1000 800 200 100).padding)
    ∧ placement 1000 800 200 100 =
        { targetWidth := 150, targetHeight := 75, padding := 8,
          watermarkX := 842, watermarkY := 717 }
    ∧ placement 1000 800 200 100 = claimedPlacement 1000 800 200 100 :=
  C1_placement_geometry 1000 800 200 100 (by norm_num) (by norm_num)
    (by norm_num) (by norm_num)

/-- C2: every record write the system performs keeps processed_url non-NULL
exactly when the status is completed: every update parameter the task
processor issues satisfies the equivalence, applying any such update to a
row satisfying the invariant preserves it, and the row created by
CreateImage on upload (NULL processed_url, status pending) satisfies it. -/
theorem C2_processed_url_invariant :
    (∀ env m p, Effect.updateImage p ∈ (processImage env m).2 →
        (p.processedUrl.valid = true ↔ p.status = .completed))
    ∧ (∀ env m p row, Effect.updateImage p ∈ (processImage env m).2 →
        (row.processedUrl.valid = true ↔ row.status = .completed) →
        ((updateImageByID row p).processedUrl.valid = true ↔
          (updateImageByID row p).status = .completed))
    ∧ ∀ newID batchID key url,
        ((createImage newID batchID key url).processedUrl.valid = true ↔
          (createImage newID batchID key url).status = .completed) := by
  refine ⟨fun env m p h => update_params_inv env m p h, ?_, ?_⟩
  · intro env m p row h hrow
    unfold updateImageByID
    split
    · exact update_params_inv env m p h
    · exact hrow
  · intro newID batchID key url
    simp [createImage]

/-- C2 witness: the base-fetch failure path issues the FAILED update with
NULL processed_url; applied to a completed row, the result still satisfies
the invariant, as does a freshly created row. -/
theorem C2_processed_url_invariant_witness :
    ((pFailed.processedUrl.valid = true ↔ pFailed.status = .completed)
      ∧ ((updateImageByID rowDone pFailed).processedUrl.valid = true ↔
          (updateImageByID rowDone pFailed).status = .completed)
      ∧ ((createImage "img-9" "batch-9" "raw/k.png" "u").processedUrl.valid = true ↔
          (createImage "img-9" "batch-9" "raw/k.png" "u").status = .completed)) :=
  ⟨C2_processed_url_invariant.1 envBaseFetchFail taskSample pFailed (by decide),
    C2_processed_url_invariant.2.1 envBaseFetchFail taskSample pFailed rowDone
      (by decide) (by decide),
    C2_processed_url_invariant.2.2 "img-9" "batch-9" "raw/k.png" "u"⟩

/-- C3 counterexample: when the watermark blob decode fails (both fetches
succeeded), the processor requeues but issues no record update at all, so
it does not mark the record PROCESSING as the claim states for every
decode failure. -/
theorem C3_decode_failures_counterexample :
    envWmDecodeFail.decode "watermark/wm.png" = .error "image: unknown format"
    ∧ processImage envWmDecodeFail taskSample =
        (.nackRequeue,
          [.getImageByID "img-1", .s3GetObject "raw/base.jpeg",
            .s3GetObject "watermark/wm.png"])
    ∧ Effect.updateImage { id := "img-1", status := .processing } ∉
        (processImage envWmDecodeFail taskSample).2 := by
  decide

/-- C3 (amended): a base-image decode failure or a JPEG encode failure
makes the processor mark the record PROCESSING (best-effort) and return
the REQUEUE directive, whereas a watermark decode failure returns REQUEUE
without any record-store write. -/
theorem C3_decode_encode_failures :
    (∀ env m img body pre w e, reachesDecode env m img body pre w →
        env.decode body = .error e →
        processImage env m =
          (.nackRequeue,
            pre ++ [.updateImage { id := m.imageID, status := .processing }]))
    ∧ (∀ env m img body pre w d, reachesDecode env m img body pre w →
        env.decode body = .ok d → env.encodeOk = false →
        processImage env m =
          (.nackRequeue,
            pre ++ [.jpegEncode 50,
              .updateImage { id := m.imageID, status := .processing }]))
    ∧ ∀ env m img body wmBody e, env.getImage m.imageID = .ok img →
        img.watermarkKey.valid = true → env.getObject img.key = .ok body →
        env.getObject img.watermarkKey.string = .ok wmBody →
        env.decode wmBody = .error e →
        processImage env m =
          (.nackRequeue,
            [.getImageByID m.imageID, .s3GetObject img.key,
              .s3GetObject img.watermarkKey.string])
        ∧ ∀ p, Effect.updateImage p ∉ (processImage env m).2 := by
  refine ⟨?_, ?_, ?_⟩
  · intro env m img body pre w e hreach hdec
    rw [processImage_eq_of_reachesDecode env m img body pre w hreach]
    unfold processDecode
    rw [hdec]
  · intro env m img body pre w d hreach hdec henc
    rw [processImage_eq_of_reachesDecode env m img body pre w hreach]
    unfold processDecode
    rw [hdec]
    simp [henc]
  · intro env m img body wmBody e h1 hv h2 h3 h4
    have heq : processImage env m =
        (.nackRequeue,
          [.getImageByID m.imageID, .s3GetObject img.key,
            .s3GetObject img.watermarkKey.string]) := by
      simp [processImage, h1, h2, hv, h3, h4]
    refine ⟨heq, ?_⟩
    intro p
    rw [heq]
    simp

/-- C3 witness: the three amended behaviors at concrete environments — a
base decode failure on the watermark-free path, an encode failure, and a
watermark decode failure. -/
theorem C3_decode_encode_failures_witness :
    processImage envBaseDecodeFail taskSample =
      (.nackRequeue,
        [.getImageByID "img-1", .s3GetObject "raw/base.jpeg",
          .updateImage { id := "img-1", status := .processing }])
    ∧ processImage envEncodeFail taskSample =
        (.nackRequeue,
          [.getImageByID "img-1", .s3GetObject "raw/base.jpeg", .jpegEncode 50,
            .updateImage { id := "img-1", status := .processing }])
    ∧ (processImage envWmDecodeFail taskSample =
        (.nackRequeue,
          [.getImageByID "img-1", .s3GetObject "raw/base.jpeg",
            .s3GetObject "watermark/wm.png"])
      ∧ ∀ p, Effect.updateImage p ∉ (processImage envWmDecodeFail taskSample).2) :=
  ⟨C3_decode_encode_failures.1 envBaseDecodeFail taskSample rowNoWm
      "raw/base.jpeg" _ none "image: unknown format"
      ⟨by decide, by decide, Or.inl ⟨by decide, rfl, rfl⟩⟩ (by decide),
    C3_decode_encode_failures.2.1 envEncodeFail taskSample rowNoWm
      "raw/base.jpeg" _ none baseImg
      ⟨by decide, by decide, Or.inl ⟨by decide, rfl, rfl⟩⟩ (by decide) (by decide),
    C3_decode_encode_failures.2.2 envWmDecodeFail taskSample rowWm
      "raw/base.jpeg" "watermark/wm.png" "image: unknown format"
      (by decide) (by decide) (by decide) (by decide) (by decide)⟩

/-- C4 (code bug): a batch created with no watermark file in the request
still persists a non-NULL watermark reference — BatchHandler.Create builds
CreateBatchParams with Valid: true around the zero-value empty string — so
the joined image row has WatermarkKey.Valid = true and the task processor
does not skip the watermark fetch: it issues a GetObject with the empty
key, whose failure requeues the message instead of producing unwatermarked
output. -/
theorem C4_no_watermark_not_skipped :
    (createBatchWatermark none "cdn.test").1 = ⟨"", true⟩
    ∧ rowFromBatchNoWm.watermarkKey = ⟨"", true⟩
    ∧ Effect.s3GetObject "" ∈ (processImage envC4 taskSample).2
    ∧ (processImage envC4 taskSample).1 = .nackRequeue := by
  decide

/-- C5: a failed record lookup, and a failed base blob fetch, each make the
processor mark the record FAILED (best-effort) and return the DISCARD
directive, with no PutObject call anywhere in the invocation. -/
theorem C5_permanent_failures :
    ∀ env m,
      (∀ e, env.getImage m.imageID = .error e →
          processImage env m =
            (.nackDiscard,
              [.getImageByID m.imageID,
                .updateImage { id := m.imageID, status := .failed }])
          ∧ ∀ k ct, Effect.s3PutObject k ct ∉ (processImage env m).2)
      ∧ ∀ img e, env.getImage m.imageID = .ok img →
          env.getObject img.key = .error e →
          processImage env m =
            (.nackDiscard,
              [.getImageByID m.imageID, .s3GetObject img.key,
                .updateImage { id := m.imageID, status := .failed }])
          ∧ ∀ k ct, Effect.s3PutObject k ct ∉ (processImage env m).2 := by
  intro env m
  constructor
  · intro e h
    have heq : processImage env m =
        (.nackDiscard,
          [.getImageByID m.imageID,
            .updateImage { id := m.imageID, status := .failed }]) := by
      simp [processImage, h]
    refine ⟨heq, ?_⟩
    intro k ct
    rw [heq]
    simp
  · intro img e h1 h2
    have heq : processImage env m =
        (.nackDiscard,
          [.getImageByID m.imageID, .s3GetObject img.key,
            .updateImage { id := m.imageID, status := .failed }]) := by
      simp [processImage, h1, h2]
    refine ⟨heq, ?_⟩
    intro k ct
    rw [heq]
    simp

/-- C5 witness: the two permanent-failure paths at concrete environments —
a missing record and a failed base blob fetch. -/
theorem C5_permanent_failures_witness :
    (processImage envLookupFail taskSample =
        (.nackDiscard,
          [.getImageByID "img-1", .updateImage { id := "img-1", status := .failed }])
      ∧ ∀ k ct, Effect.s3PutObject k ct ∉ (processImage envLookupFail taskSample).2)
    ∧ (processImage envBaseFetchFail taskSample =
        (.nackDiscard,
          [.getImageByID "img-1", .s3GetObject "raw/base.jpeg",
            .updateImage { id := "img-1", status := .failed }])
      ∧ ∀ k ct, Effect.s3PutObject k ct ∉ (processImage envBaseFetchFail taskSample).2) :=
  ⟨(C5_permanent_failures envLookupFail taskSample).1
      "sql: no rows in result set" (by decide),
    (C5_permanent_failures envBaseFetchFail taskSample).2 rowNoWm
      "NoSuchKey" (by decide) (by decide)⟩

/-- C6: when the record has a watermark reference and the watermark blob
fetch fails (the base fetch having succeeded), the processor returns the
REQUEUE directive without writing to the record store at all. -/
theorem C6_watermark_fetch_requeue :
    ∀ env m img body e, env.getImage m.imageID = .ok img →
      img.watermarkKey.valid = true → env.getObject img.key = .ok body →
      env.getObject img.watermarkKey.string = .error e →
      processImage env m =
        (.nackRequeue,
          [.getImageByID m.imageID, .s3GetObject img.key,
            .s3GetObject img.watermarkKey.string])
      ∧ ∀ p, Effect.updateImage p ∉ (processImage env m).2 := by
  intro env m img body e h1 hv h2 h3
  have heq : processImage env m =
      (.nackRequeue,
        [.getImageByID m.imageID, .s3GetObject img.key,
          .s3GetObject img.watermarkKey.string]) := by
    simp [processImage, h1, h2, hv, h3]
  refine ⟨heq, ?_⟩
  intro p
  rw [heq]
  simp

/-- C6 witness: the watermark-fetch failure path at a concrete environment. -/
theorem C6_watermark_fetch_requeue_witness :
    processImage envWmFetchFail taskSample =
      (.nackRequeue,
        [.getImageByID "img-1", .s3GetObject "raw/base.jpeg",
          .s3GetObject "watermark/wm.png"])
    ∧ ∀ p, Effect.updateImage p ∉ (processImage envWmFetchFail taskSample).2 :=
  C6_watermark_fetch_requeue envWmFetchFail taskSample rowWm "raw/base.jpeg"
    "NoSuchKey" (by decide) (by decide) (by decide) (by decide)

/-- C7: for every environment of external-call outcomes, the processor
returns exactly one of the three directives, and the outcome of any
best-effort record update — which the code never inspects — changes
neither the directive nor anything else about the invocation. -/
theorem C7_total_directive :
    ∀ env m f,
      ((processImage env m).1 = .ack ∨ (processImage env m).1 = .nackRequeue ∨
        (processImage env m).1 = .nackDiscard)
      ∧ processImage { env with updateOk := f } m = processImage env m := by
  intro env m f
  refine ⟨?_, rfl⟩
  cases h : (processImage env m).1
  · exact Or.inl rfl
  · exact Or.inr (Or.inl rfl)
  · exact Or.inr (Or.inr rfl)

/-- C8: every PutObject the processor issues carries content type
image/jpeg (at the generated processed key), every JPEG encode it issues
uses quality 50, and every acknowledged (successful) invocation actually
performed the quality-50 encode and the image/jpeg put — regardless of the
input format. -/
theorem C8_jpeg_quality_and_content_type :
    ∀ env m,
      (∀ k ct, Effect.s3PutObject k ct ∈ (processImage env m).2 →
          ct = "image/jpeg" ∧ k = "processed/" ++ env.assetPath)
      ∧ (∀ q, Effect.jpegEncode q ∈ (processImage env m).2 → q = 50)
      ∧ ((processImage env m).1 = .ack →
          Effect.jpegEncode 50 ∈ (processImage env m).2 ∧
            Effect.s3PutObject ("processed/" ++ env.assetPath) "image/jpeg" ∈
              (processImage env m).2) := by
  intro env m
  refine ⟨?_, ?_, processImage_ack_effects env m⟩
  · intro k ct h
    exact ⟨(processImage_put_shape env m k ct h).2,
      (processImage_put_shape env m k ct h).1⟩
  · intro q h
    exact processImage_encode_shape env m q h

/-- C8 witness: the successful watermark-free run encodes at quality 50 and
puts with content type image/jpeg. -/
theorem C8_jpeg_quality_and_content_type_witness :
    (("image/jpeg" : String) = "image/jpeg" ∧
      ("processed/out.jpeg" : String) = "processed/" ++ envHappy.assetPath)
    ∧ (50 : ℕ) = 50
    ∧ (Effect.jpegEncode 50 ∈ (processImage envHappy taskSample).2 ∧
        Effect.s3PutObject ("processed/" ++ envHappy.assetPath) "image/jpeg" ∈
          (processImage envHappy taskSample).2) :=
  ⟨(C8_jpeg_quality_and_content_type envHappy taskSample).1
      "processed/out.jpeg" "image/jpeg" (by decide),
    (C8_jpeg_quality_and_content_type envHappy taskSample).2.1 50 (by decide),
    (C8_jpeg_quality_and_content_type envHappy taskSample).2.2 (by decide)⟩

/-- C9: compositing a decoded base image without a watermark keeps the
base bounds (the fresh RGBA buffer is allocated over the same bounds), so
the JPEG-encoded output decodes back to an image of exactly the base
width and height. -/
theorem C9_roundtrip_dimensions :
    ∀ base : DecodedImage,
      (composite base none).bounds = base.bounds
      ∧ (jpegDecodeImage (jpegEncodeImage (composite base none) 50)).bounds.dx
          = base.bounds.dx
      ∧ (jpegDecodeImage (jpegEncodeImage (composite base none) 50)).bounds.dy
          = base.bounds.dy := by
  intro base
  refine ⟨rfl, ?_, ?_⟩ <;>
    simp [jpegDecodeImage, jpegEncodeImage, composite, Rect.dx, Rect.dy]

/-- C10: the UpdateImageByID statement always assigns processed_url, so
every best-effort status-only update the processor issues (FAILED or
PROCESSING, whose parameters carry the zero-value NULL processed_url)
overwrites the stored URL of a previously completed record with NULL: the field
is not framed by status updates. -/
theorem C10_status_update_clears_url :
    ∀ env m p row, Effect.updateImage p ∈ (processImage env m).2 →
      p.status ≠ .completed →
      row.id = p.id → row.deleted = false →
      row.status = .completed → row.processedUrl.valid = true →
      (updateImageByID row p).processedUrl.valid = false
      ∧ (updateImageByID row p).status = p.status := by
  intro env m p row hmem hnc hid hdel hst hurl
  rcases processImage_update_shape env m p hmem with ⟨-, hpu, -⟩ | ⟨hc, -⟩
  · unfold updateImageByID
    rw [if_pos ⟨hid, hdel⟩]
    simp [hpu]
  · exact absurd hc hnc

/-- C10 witness: the FAILED update issued on a base-fetch failure, applied
to a completed row with a stored URL, nulls out that URL. -/
theorem C10_status_update_clears_url_witness :
    (updateImageByID rowDone pFailed).processedUrl.valid = false
    ∧ (updateImageByID rowDone pFailed).status = pFailed.status :=
  C10_status_update_clears_url envBaseFetchFail taskSample pFailed rowDone
    (by decide) (by decide) (by decide) (by decide) (by decide) (by decide)

end ImageGo
